import Mathlib

/-!
Verification of the worker lifecycle core in `nats_actor/core/actor.py`.

The file shallowly embeds the `Actor` class: its configuration, its control
queue (an `asyncio.Queue`), the subscription phase and control-consumer loop
of `Actor._run_in_loop`, the `nats_driver` context manager, the signal
registration done in `Actor.__init__`, and the `request` / `send_task` /
`run` entry points.  Parts of the repository that are imported by
`actor.py` but absent from the sources (`nats_actor/core/driver.py`, the
`NatsDriver` class) are modelled from the specification and marked as such.
-/

namespace NatsActor

/-- `WORKER_CONTROL_SIGNAL_START` from actor.py. -/
def WORKER_CONTROL_SIGNAL_START : String := "START"

/-- `WORKER_CONTROL_SIGNAL_STOP` from actor.py. -/
def WORKER_CONTROL_SIGNAL_STOP : String := "STOP"

/-- One entry of `conf.TASKS`: a dict with keys `subject`, `queue`, `task`
(the dotted path of the task callable resolved by `get_module`). -/
structure TaskSpec where
  subject : String
  queue : Option String
  task : String
deriving Repr, DecidableEq

/-- The part of the configuration object that `Actor` reads. -/
structure Conf where
  NATS_URL : String
  WORKER_NAME : String
  TASKS : List TaskSpec
deriving Repr, DecidableEq

/-- Which callback a subscription was created with: the control-signal
handler produced by `create_signal_handler`, or the wrapped task callback
produced by `self._driver.create_task(task_fn)`. -/
inductive Handler where
  | controlHandler : Handler
  | taskHandler : String → Handler
deriving Repr, DecidableEq

/-- A subscription as created by `nats.subscribe(subject, queue=..., cb=...)`.
The control subscription passes no queue argument. -/
structure Subscription where
  subject : String
  queue : Option String
  cb : Handler
deriving Repr, DecidableEq

/-- Observable actions of `Actor._run_in_loop`, in program order:
creating a subscription, reading one value from the control queue
(`await self._queue.get()`), and closing the driver connection
(`await self._driver.close()` run by the `nats_driver` context manager). -/
inductive Event where
  | subscribe : Subscription → Event
  | getSignal : String → Event
  | closeConn : Event
deriving Repr, DecidableEq

/-- The subscription phase of `Actor._run_in_loop` (actor.py lines 86-103):
first `nats.subscribe(self.conf.WORKER_NAME, cb=self._handle_signal)`,
then one `nats.subscribe(task_spec.subject, queue=task_spec.queue, cb=...)`
per element of `conf.TASKS`, in iteration order of the `for` loop. -/
def subscribePhase (conf : Conf) : List Subscription :=
  { subject := conf.WORKER_NAME, queue := none, cb := Handler.controlHandler } ::
    conf.TASKS.map (fun ts =>
      { subject := ts.subject, queue := ts.queue, cb := Handler.taskHandler ts.task })

/-- The control-consumer loop of `_run_in_loop` (actor.py lines 105-108):
`signal = START; while signal != STOP: signal = await self._queue.get()`.
The argument is the FIFO contents of `self._queue`; the result is the list
of `getSignal` events emitted, paired with `true` when the loop exited and
`false` when it exhausted the queued values and is still suspended waiting
for the next one. -/
def loopTrace : List String → List Event × Bool
  | [] => ([], false)
  | v :: rest =>
    if v = WORKER_CONTROL_SIGNAL_STOP then ([Event.getSignal v], true)
    else
      let t := loopTrace rest
      (Event.getSignal v :: t.1, t.2)

/-- `Actor._run_in_loop` as an event trace: the subscription phase, then
the control loop; when (and only when) the loop exits, control leaves the
`async with self.nats_driver()` block and the driver connection is closed.
The boolean reports whether the coroutine completed. -/
def runInLoop (conf : Conf) (queue : List String) : List Event × Bool :=
  let subEvents := (subscribePhase conf).map Event.subscribe
  let t := loopTrace queue
  if t.2 then (subEvents ++ t.1 ++ [Event.closeConn], true)
  else (subEvents ++ t.1, false)

/-- The subscriptions recorded in a trace, in creation order. -/
def subsOf (t : List Event) : List Subscription :=
  t.filterMap (fun e =>
    match e with
    | Event.subscribe s => some s
    | _ => none)

theorem loopTrace_exits_iff (queue : List String) :
    (loopTrace queue).2 = true ↔ WORKER_CONTROL_SIGNAL_STOP ∈ queue := by
  induction queue with
  | nil => simp [loopTrace]
  | cons v rest ih =>
    by_cases h : v = WORKER_CONTROL_SIGNAL_STOP
    · subst h; simp [loopTrace]
    · simp [loopTrace, h, ih, Ne.symm h]

theorem loopTrace_events_of_exit (queue : List String) :
    (loopTrace queue).2 = true →
    (loopTrace queue).1 =
      ((queue.takeWhile (fun v => v ≠ WORKER_CONTROL_SIGNAL_STOP))
        ++ [WORKER_CONTROL_SIGNAL_STOP]).map Event.getSignal := by
  induction queue with
  | nil => simp [loopTrace]
  | cons v rest ih =>
    by_cases h : v = WORKER_CONTROL_SIGNAL_STOP
    · subst h; simp [loopTrace, List.takeWhile]
    · intro hex
      have hrest : (loopTrace rest).2 = true := by
        simpa [loopTrace, h] using hex
      simp [loopTrace, h, List.takeWhile, ih hrest]

theorem subsOf_append (a b : List Event) : subsOf (a ++ b) = subsOf a ++ subsOf b := by
  simp [subsOf]

theorem subsOf_map_subscribe (l : List Subscription) :
    subsOf (l.map Event.subscribe) = l := by
  induction l with
  | nil => rfl
  | cons s rest ih => simp [subsOf] at ih ⊢; exact ih

theorem subsOf_loopTrace (queue : List String) : subsOf (loopTrace queue).1 = [] := by
  induction queue with
  | nil => rfl
  | cons v rest ih =>
    by_cases h : v = WORKER_CONTROL_SIGNAL_STOP
    · subst h; rfl
    · simpa [loopTrace, h, subsOf] using ih

theorem subsOf_closeConn : subsOf [Event.closeConn] = [] := rfl

theorem subsOf_runInLoop (conf : Conf) (queue : List String) :
    subsOf (runInLoop conf queue).1 = subscribePhase conf := by
  by_cases h : (loopTrace queue).2 = true
  · simp [runInLoop, h, subsOf_append, subsOf_map_subscribe, subsOf_loopTrace,
      subsOf_closeConn]
  · simp [runInLoop, h, subsOf_append, subsOf_map_subscribe, subsOf_loopTrace]

/-- C1: For every configuration and every control-queue content, the
trace of `Actor._run_in_loop` creates exactly `N + 1` subscriptions where
`N = conf.TASKS.length`: the first event of the trace is the subscription
on the control subject `conf.WORKER_NAME` with the control handler, and the
subscriptions in creation order are exactly the control subscription
followed by one subscription per task spec in configuration order. -/
theorem run_in_loop_subscription_order (conf : Conf) (queue : List String) :
    subsOf (runInLoop conf queue).1 =
      { subject := conf.WORKER_NAME, queue := none, cb := Handler.controlHandler } ::
        conf.TASKS.map (fun ts =>
          { subject := ts.subject, queue := ts.queue, cb := Handler.taskHandler ts.task })
    ∧ (subsOf (runInLoop conf queue).1).length = conf.TASKS.length + 1
    ∧ (runInLoop conf queue).1.head? =
        some (Event.subscribe
          { subject := conf.WORKER_NAME, queue := none, cb := Handler.controlHandler }) := by
  refine ⟨?_, ?_, ?_⟩
  · rw [subsOf_runInLoop]; rfl
  · rw [subsOf_runInLoop]; simp [subscribePhase]
  · unfold runInLoop
    by_cases h : (loopTrace queue).2 = true
    · simp [h, subscribePhase]
    · simp [h, subscribePhase]

/-- C2: the run loop consumes the queued control values in insertion (FIFO)
order and exits exactly when it reads `"STOP"`: the loop exits if and only
if `"STOP"` occurs among the queued values; reading any other value —
`"START"` or any unrecognized payload — leaves the loop state unchanged
(the remaining behaviour is that of the rest of the queue, still waiting);
and on exit the values read are precisely the longest prefix of
non-`"STOP"` values followed by the first `"STOP"`, in insertion order. -/
theorem control_loop_fifo_stop (queue : List String) :
    ((loopTrace queue).2 = true ↔ WORKER_CONTROL_SIGNAL_STOP ∈ queue)
    ∧ (∀ v rest, v ≠ WORKER_CONTROL_SIGNAL_STOP →
        loopTrace (v :: rest) =
          (Event.getSignal v :: (loopTrace rest).1, (loopTrace rest).2))
    ∧ ((loopTrace queue).2 = true →
        (loopTrace queue).1 =
          ((queue.takeWhile (fun v => v ≠ WORKER_CONTROL_SIGNAL_STOP))
            ++ [WORKER_CONTROL_SIGNAL_STOP]).map Event.getSignal) := by
  refine ⟨loopTrace_exits_iff queue, ?_, loopTrace_events_of_exit queue⟩
  intro v rest hv
  simp [loopTrace, hv]

theorem control_loop_fifo_stop_witness :
    (loopTrace ["START", "NOPE", "STOP", "LATE"]).2 = true ∧
    (loopTrace ["START", "NOPE", "STOP", "LATE"]).1 =
      [Event.getSignal "START", Event.getSignal "NOPE", Event.getSignal "STOP"] := by
  have h := control_loop_fifo_stop ["START", "NOPE", "STOP", "LATE"]
  have hmem : WORKER_CONTROL_SIGNAL_STOP ∈ ["START", "NOPE", "STOP", "LATE"] := by
    simp [WORKER_CONTROL_SIGNAL_STOP]
  have hex := h.1.mpr hmem
  refine ⟨hex, ?_⟩
  rw [h.2.2 hex]
  rfl

/-- The `asyncio.Queue` underlying the ControlChannel: `maxsize = 0` means
unbounded, the default of `asyncio.Queue()`. -/
structure AioQueue where
  maxsize : Nat
  items : List String
deriving Repr, DecidableEq

/-- The method `asyncio.Queue.put_nowait`: appends the item without blocking,
raising `QueueFull` exactly when the queue is bounded and already holds
`maxsize` items. -/
def AioQueue.put_nowait (q : AioQueue) (v : String) : Except String AioQueue :=
  if 0 < q.maxsize ∧ q.maxsize ≤ q.items.length then Except.error "QueueFull"
  else Except.ok { q with items := q.items ++ [v] }

/-- The queue built by `self._queue = asyncio.Queue()` in `Actor.__init__`
(actor.py line 53): constructed with no `maxsize` argument, hence unbounded
(`maxsize = 0`) and initially empty. -/
def initQueue : AioQueue := { maxsize := 0, items := [] }

/-- `Actor.stop` (actor.py lines 59-60):
`self._queue.put_nowait(WORKER_CONTROL_SIGNAL_STOP)`. -/
def Actor.stop (q : AioQueue) : Except String AioQueue :=
  q.put_nowait WORKER_CONTROL_SIGNAL_STOP

/-- C10: `Actor.stop` never blocks and never raises `QueueFull`: on the
control queue as the constructor builds it (`maxsize = 0`, unbounded), and
whatever values are already queued, the `put_nowait` enqueue of `"STOP"`
always succeeds and appends `"STOP"` at the tail. -/
theorem stop_never_blocks (items : List String) :
    Actor.stop { maxsize := initQueue.maxsize, items := items } =
      Except.ok { maxsize := initQueue.maxsize,
                  items := items ++ [WORKER_CONTROL_SIGNAL_STOP] } := by
  simp [Actor.stop, AioQueue.put_nowait, initQueue]

/-- The signal number of SIGTERM on Linux. -/
def SIGTERM : Nat := 15

/-- A Python callable as the signal machinery sees it: the number of
positional parameters it accepts (beyond the bound `self`) and its effect
on the control queue.  Calling a Python function with a number of
positional arguments different from its parameter count raises `TypeError`
before the body runs. -/
structure PyCallable where
  arity : Nat
  body : AioQueue → Except String AioQueue

/-- Invocation of a Python callable with `nargs` positional arguments. -/
def pyCall (f : PyCallable) (nargs : Nat) (q : AioQueue) : Except String AioQueue :=
  if nargs = f.arity then f.body q else Except.error "TypeError"

/-- The bound method `self.stop`: `def stop(self)` accepts zero positional
arguments beyond `self`; its body enqueues `"STOP"`. -/
def stopCallable : PyCallable := { arity := 0, body := Actor.stop }

/-- The process signal table after `Actor.__init__` (actor.py line 57):
`signal.signal(signal.SIGTERM, self.stop)` and nothing else. -/
def installedSignalHandlers : List (Nat × PyCallable) := [(SIGTERM, stopCallable)]

/-- Delivery of OS signal `signum`: the Python runtime invokes the installed
handler with the two positional arguments `(signum, frame)`; a signal with
no installed handler keeps its default disposition, so the core does
nothing to the queue. -/
def deliverSignal (signum : Nat) (q : AioQueue) : Except String AioQueue :=
  match installedSignalHandlers.lookup signum with
  | some f => pyCall f 2 q
  | none => Except.ok q

/-- C4 (evaluated at the failing input): delivering SIGTERM invokes the
registered handler `self.stop` with `(signum, frame)`, two positional
arguments that `def stop(self)` does not accept, so the dispatch raises
`TypeError` and `"STOP"` is never enqueued — contradicting the claim that
the installed handler enqueues `"STOP"` without blocking.  The second part
confirms the rest of the claim: no signal other than SIGTERM is mapped by
the core. -/
theorem sigterm_dispatch_type_error (q : AioQueue) :
    deliverSignal SIGTERM q = Except.error "TypeError"
    ∧ (∀ s : Nat, s ≠ SIGTERM → deliverSignal s q = Except.ok q) := by
  constructor
  · rfl
  · intro s hs
    have hbeq : (s == SIGTERM) = false := beq_eq_false_iff_ne.mpr hs
    simp [deliverSignal, installedSignalHandlers, List.lookup, hbeq]

theorem sigterm_dispatch_type_error_witness :
    deliverSignal SIGTERM initQueue = Except.error "TypeError"
    ∧ deliverSignal 2 initQueue = Except.ok initQueue :=
  ⟨(sigterm_dispatch_type_error initQueue).1,
   (sigterm_dispatch_type_error initQueue).2 2 (by decide)⟩

/-- The closure `_handle_signal` returned by `Actor.create_signal_handler`
(actor.py lines 62-68), applied to the decoded text `msg.data.decode()` of
an inbound control-subject message.  It enqueues the decoded value verbatim
with `self._queue.put_nowait(worker_message)`; the surrounding `await` is
then applied to the `None` that `put_nowait` returned, which raises
`TypeError` inside the handler coroutine — after the enqueue has already
taken effect.  The result pairs the queue outcome with the coroutine
outcome. -/
def handle_signal (decodedData : String) (q : AioQueue) :
    Except String AioQueue × Except String Unit :=
  (q.put_nowait decodedData, Except.error "TypeError")

/-- C5: for every message delivered on the control subject, the handler
enqueues the UTF-8 decoded payload verbatim onto the ControlChannel — for
every decoded value, recognized or not, with no validation at this layer:
on the unbounded queue the actor constructs, the queue afterwards is the
old queue with exactly the decoded value appended. -/
theorem handle_signal_enqueues_verbatim (decodedData : String) (items : List String) :
    (handle_signal decodedData { maxsize := initQueue.maxsize, items := items }).1 =
      Except.ok { maxsize := initQueue.maxsize, items := items ++ [decodedData] } := by
  simp [handle_signal, AioQueue.put_nowait, initQueue]

/-- Modelled from the spec: the `NatsDriver` class lives in
`nats_actor/core/driver.py`, which is not among the sources — only its
caller `actor.py` is.  Per the spec the driver owns at most one live
connection per actor, whose active subscriptions it tracks. -/
structure DriverState where
  connected : Bool
  subs : List Subscription
deriving Repr, DecidableEq

/-- Modelled from the spec: `NatsDriver.close` "gracefully unsubscribes all
active subscriptions, drains in-flight handler invocations already
admitted, then releases the network session"; on an already-closed
connection it is a no-op, not an error (idempotent). -/
def DriverState.close (_d : DriverState) : DriverState :=
  { connected := false, subs := [] }

/-- Modelled from the spec: `NatsDriver.get_connection(loop)` reuses the
live connection or establishes one. -/
def getConnection (d : DriverState) : DriverState := { d with connected := true }

/-- Modelled from the spec: the bus as seen by one request.  For each
subject there is either no responder, or a responder computing the reply
payload from the request payload after a fixed latency (time in abstract
ticks); `defaultTimeout` is the connection-level timeout that
`nats.request` applies when, as in `Actor.request` (actor.py line 137), no
per-call timeout is passed. -/
structure Bus where
  responder : String → Option ((String → String) × Nat)
  defaultTimeout : Nat

/-- Modelled from the spec: waiting for a reply, tick by tick — the reply
arrives after the first argument many ticks, the wait gives up after the
second argument many ticks.  Returns `true` exactly when the reply arrives
before the wait gives up. -/
def awaitReply : Nat → Nat → Bool
  | 0, _ => true
  | _ + 1, 0 => false
  | l + 1, t + 1 => awaitReply l t

theorem awaitReply_eq_le (l t : Nat) : awaitReply l t = decide (l ≤ t) := by
  induction l generalizing t with
  | zero => cases t <;> simp [awaitReply]
  | succ l ih =>
    cases t with
    | zero => simp [awaitReply]
    | succ t => simp [awaitReply, ih, Nat.succ_le_succ_iff]

/-- Modelled from the spec: the connection-level
`request(subject, payload, timeout)` primitive — it sends and waits for
exactly one reply, failing with `TimeoutError` when no responder replies
before `timeout` elapses. -/
def busRequest (bus : Bus) (subject payload : String) (timeout : Nat) :
    Except String String :=
  match bus.responder subject with
  | some fl =>
    if awaitReply fl.2 timeout then Except.ok (fl.1 payload)
    else Except.error "TimeoutError"
  | none => Except.error "TimeoutError"

/-- The mutable state of one `Actor`: its control queue and its driver. -/
structure ActorState where
  queue : AioQueue
  driver : DriverState
deriving Repr, DecidableEq

/-- Observable actions of the request path. -/
inductive ReqEvent where
  | getConn : ReqEvent
  | busReq : String → String → ReqEvent
  | closeConn : ReqEvent
deriving Repr, DecidableEq

/-- Outcome of one call to `Actor.request`. -/
structure RequestResult where
  state : ActorState
  response : Except String String
  events : List ReqEvent
deriving Repr

/-- `Actor.request(name, payload, loop=None)` (actor.py lines 135-138):
inside `async with self.nats_driver(loop)` — which runs `get_connection` on
entry and `self._driver.close()` on exit (lines 70-81) — it performs
`await nats.request(name, payload)`, with no per-call timeout so the
connection default applies, and returns the reply.  The optional third
parameter of the Python method selects an event loop; it is not a timeout
and is not forwarded to `nats.request`. -/
def Actor.request (st : ActorState) (bus : Bus) (name payload : String) :
    RequestResult :=
  let d := getConnection st.driver
  let res := busRequest bus name payload bus.defaultTimeout
  { state := { st with driver := d.close },
    response := res,
    events := [ReqEvent.getConn, ReqEvent.busReq name payload, ReqEvent.closeConn] }

/-- The reading of `Actor.request` asserted by the claim: its third
parameter is a caller-chosen timeout bounding the wait for the reply of
this call.  Stated from the claim, for comparison with `Actor.request`
above. -/
def claimedRequest (bus : Bus) (name payload : String) (timeout : Nat) :
    Except String String :=
  busRequest bus name payload timeout

/-- A concrete bus with a responder on subject `"foo.get"` replying after 2
ticks, on a connection with default timeout 1 tick. -/
def exampleBus : Bus :=
  { responder := fun s =>
      if s = "foo.get" then some (fun p => String.append "reply:" p, 2) else none,
    defaultTimeout := 1 }

/-- An actor state with no live connection and no subscriptions. -/
def idleState : ActorState :=
  { queue := initQueue, driver := { connected := false, subs := [] } }

/-- C6 counterexample: a responder on `"foo.get"` replies after 2 ticks,
within the caller-given timeout of 3 ticks, so on the claimed reading of
`Actor.request(subject, payload, timeout)` the call returns the reply
bytes; but the code passes no timeout to `nats.request`, so the connection
default of 1 tick applies and `Actor.request` fails with `TimeoutError` at
this very input. -/
theorem request_timeout_counterexample :
    claimedRequest exampleBus "foo.get" "ping" 3 = Except.ok "reply:ping"
    ∧ (Actor.request idleState exampleBus "foo.get" "ping").response =
        Except.error "TimeoutError" := by
  constructor <;> rfl

/-- C6 amended: `Actor.request(name, payload, loop)` accepts no per-call
timeout — its optional third parameter is an event loop — so the underlying
request runs with the connection default timeout: the response is the exact
reply bytes computed by the responder when the responder replies within the
default timeout, and `TimeoutError` when the reply comes later than the
default timeout or no responder exists on the subject. -/
theorem request_uses_default_timeout (st : ActorState) (bus : Bus)
    (name payload : String) :
    (∀ f lat, bus.responder name = some (f, lat) →
      (Actor.request st bus name payload).response =
        (if lat ≤ bus.defaultTimeout then Except.ok (f payload)
         else Except.error "TimeoutError"))
    ∧ (bus.responder name = none →
        (Actor.request st bus name payload).response = Except.error "TimeoutError") := by
  constructor
  · intro f lat h
    by_cases hle : lat ≤ bus.defaultTimeout <;>
      simp [Actor.request, busRequest, h, awaitReply_eq_le, hle]
  · intro h
    simp [Actor.request, busRequest, h]

theorem request_uses_default_timeout_witness :
    (Actor.request idleState exampleBus "foo.get" "ping").response =
      (if 2 ≤ exampleBus.defaultTimeout then
        Except.ok ((fun p => String.append "reply:" p) "ping")
       else Except.error "TimeoutError") :=
  (request_uses_default_timeout idleState exampleBus "foo.get" "ping").1
    (fun p => String.append "reply:" p) 2 rfl

/-- A configuration with one task spec, as in the end-to-end scenario of
the spec. -/
def exampleConf : Conf :=
  { NATS_URL := "nats://127.0.0.1:4222", WORKER_NAME := "worker",
    TASKS := [{ subject := "foo.get", queue := some "workers",
                task := "example.app.tasks.foo" }] }

/-- An actor state as it is while the run loop is live: connection open,
control and task subscriptions registered. -/
def runningState : ActorState :=
  { queue := initQueue,
    driver := { connected := true, subs := subscribePhase exampleConf } }

/-- C7 counterexample: with the run loop live (connection open, control and
task subscriptions registered), one call to `Actor.request` exits its
`nats_driver` context, which closes the shared driver connection: the
connection ends closed and every subscription is released — the
subscription bookkeeping is not left unchanged, refuting the claim at this
concrete state. -/
theorem request_frame_counterexample :
    (Actor.request runningState exampleBus "foo.get" "ping").state.driver.subs = []
    ∧ runningState.driver.subs ≠ []
    ∧ (Actor.request runningState exampleBus "foo.get" "ping").state.driver.connected
        = false
    ∧ runningState.driver.connected = true := by
  refine ⟨rfl, ?_, rfl, rfl⟩
  simp [runningState, subscribePhase]

/-- The bus requests recorded in a request trace. -/
def busReqsOf (evs : List ReqEvent) : List (String × String) :=
  evs.filterMap (fun e =>
    match e with
    | ReqEvent.busReq s p => some (s, p)
    | _ => none)

/-- C7 amended: `Actor.request` performs exactly one bus request — for the
given subject and payload — and returns its reply, leaving the control
queue untouched; but on completion its connection context closes the driver
connection, so the driver always ends closed with no subscriptions, and the
whole actor state is left unchanged exactly when the actor held no live
connection and no subscriptions (before the run loop, or after shutdown). -/
theorem request_single_and_closes (st : ActorState) (bus : Bus)
    (name payload : String) :
    busReqsOf (Actor.request st bus name payload).events = [(name, payload)]
    ∧ (Actor.request st bus name payload).response =
        busRequest bus name payload bus.defaultTimeout
    ∧ (Actor.request st bus name payload).state.queue = st.queue
    ∧ (Actor.request st bus name payload).state.driver =
        { connected := false, subs := [] }
    ∧ (st.driver = { connected := false, subs := [] } →
        (Actor.request st bus name payload).state = st) := by
  refine ⟨rfl, rfl, rfl, rfl, ?_⟩
  intro h
  cases st with
  | mk q d =>
    have hd : d = { connected := false, subs := [] } := h
    subst hd
    rfl

theorem request_single_and_closes_witness :
    (Actor.request idleState exampleBus "absent.subject" "x").state = idleState :=
  (request_single_and_closes idleState exampleBus "absent.subject" "x").2.2.2.2 rfl

/-- The number of times the driver connection is closed in a trace of
`Actor._run_in_loop`. -/
def closeCount (t : List Event) : Nat :=
  (t.filterMap (fun e =>
    match e with
    | Event.closeConn => some ()
    | _ => none)).length

theorem closeCount_append (a b : List Event) :
    closeCount (a ++ b) = closeCount a + closeCount b := by
  simp [closeCount]

theorem closeCount_map_subscribe (l : List Subscription) :
    closeCount (l.map Event.subscribe) = 0 := by
  simp [closeCount]

theorem closeCount_loopTrace (queue : List String) :
    closeCount (loopTrace queue).1 = 0 := by
  induction queue with
  | nil => rfl
  | cons v rest ih =>
    by_cases h : v = WORKER_CONTROL_SIGNAL_STOP
    · subst h; rfl
    · simpa [loopTrace, h, closeCount] using ih

/-- C3: whenever the control queue holds a `"STOP"` — whether enqueued by
`Actor.stop` or decoded from a bus control message — `Actor._run_in_loop`
completes (the actor goes from RUNNING to STOPPED) and the trace contains
exactly one close of the driver connection; in particular a queue holding a
second `"STOP"` still closes exactly once, and the modelled driver close is
idempotent: closing an already-closed connection is a no-op, not an
error. -/
theorem stop_closes_connection_once (conf : Conf) (queue : List String)
    (h : WORKER_CONTROL_SIGNAL_STOP ∈ queue) :
    (runInLoop conf queue).2 = true
    ∧ closeCount (runInLoop conf queue).1 = 1
    ∧ (∀ d : DriverState, DriverState.close (DriverState.close d) =
        DriverState.close d) := by
  have hex : (loopTrace queue).2 = true := (loopTrace_exits_iff queue).mpr h
  refine ⟨?_, ?_, fun d => rfl⟩
  · simp [runInLoop, hex]
  · simp [runInLoop, hex, closeCount_append, closeCount_map_subscribe,
      closeCount_loopTrace]
    rfl

theorem stop_closes_connection_once_witness :
    (runInLoop exampleConf
      [WORKER_CONTROL_SIGNAL_STOP, WORKER_CONTROL_SIGNAL_STOP]).2 = true
    ∧ closeCount (runInLoop exampleConf
        [WORKER_CONTROL_SIGNAL_STOP, WORKER_CONTROL_SIGNAL_STOP]).1 = 1 := by
  have h := stop_closes_connection_once exampleConf
    [WORKER_CONTROL_SIGNAL_STOP, WORKER_CONTROL_SIGNAL_STOP] (by simp)
  exact ⟨h.1, h.2.1⟩

/-- The two `perf_counter` readings taken by `Actor.send_task` (actor.py
lines 142 and 147). -/
structure PerfClock where
  t0 : Nat
  t1 : Nat
deriving Repr, DecidableEq

/-- `Actor.send_task(name, payload)` (actor.py lines 140-150): obtain a
fresh event loop from `simple_eventloop`, read `now = perf_counter()`, run
`self.request(name, payload, loop)` to completion on that loop, compute
`elapsed = (perf_counter() - now) * 1000` and log it, then return the
response.  The result pairs the request outcome with the elapsed
milliseconds that were logged. -/
def Actor.send_task (clock : PerfClock) (st : ActorState) (bus : Bus)
    (name payload : String) : RequestResult × Nat :=
  let now := clock.t0
  let response := Actor.request st bus name payload
  let elapsed := (clock.t1 - now) * 1000
  (response, elapsed)

/-- C8: for every name and payload, `Actor.send_task` returns exactly the
value that `Actor.request` run to completion returns, and the elapsed-time
measurement and logging do not alter the returned response: the returned
component is the same for any pair of clock readings. -/
theorem send_task_eq_request (c1 c2 : PerfClock) (st : ActorState) (bus : Bus)
    (name payload : String) :
    (Actor.send_task c1 st bus name payload).1 = Actor.request st bus name payload
    ∧ (Actor.send_task c1 st bus name payload).1 =
        (Actor.send_task c2 st bus name payload).1 :=
  ⟨rfl, rfl⟩

/-- How `self._loop.run_until_complete(self._run_in_loop())` in `Actor.run`
ends: a normal return, or a `KeyboardInterrupt` caught by the `except`
clause. -/
inductive RunExit where
  | normal : RunExit
  | keyboardInterrupt : RunExit
deriving Repr, DecidableEq

/-- The outcome of awaiting one pending event-loop task in the `finally`
block of `Actor.run`. -/
inductive TaskOutcome where
  | done : TaskOutcome
  | cancelled : TaskOutcome
  | failed : String → TaskOutcome
deriving Repr, DecidableEq

/-- Whether an outcome is a failure other than cancellation. -/
def TaskOutcome.isFailure : TaskOutcome → Bool
  | TaskOutcome.failed _ => true
  | _ => false

/-- What is observable after `Actor.run` returns or raises. -/
structure RunResult where
  queue : AioQueue
  loopClosed : Bool
  raised : Option String
deriving Repr, DecidableEq

/-- The body of the `finally` block of `Actor.run` (actor.py lines 120-128)
applied to the pending tasks: each task is awaited under
`with suppress(asyncio.CancelledError)`, so a `CancelledError` is
suppressed and the iteration continues, while any other exception
propagates out of the `finally` block at once. -/
def awaitPending : List TaskOutcome → Except String Unit
  | [] => Except.ok ()
  | TaskOutcome.done :: rest => awaitPending rest
  | TaskOutcome.cancelled :: rest => awaitPending rest
  | TaskOutcome.failed e :: _ => Except.error e

/-- `Actor.run` (actor.py lines 110-133).  The first argument is the
content of the control queue when `run_until_complete` ends; `ex` abstracts
how it ends — normal return, or `KeyboardInterrupt`, which the `except`
clause answers with `self.stop()`, enqueuing `"STOP"`; `pending` abstracts
the outcomes of the pending event-loop tasks the `finally` block then
awaits.  `self._loop.close()` runs only after every awaited task has been
disposed of without an unsuppressed exception. -/
def Actor.run (items : List String) (ex : RunExit) (pending : List TaskOutcome) :
    RunResult :=
  let q0 : AioQueue := { maxsize := initQueue.maxsize, items := items }
  let q1 := match ex with
    | RunExit.normal => q0
    | RunExit.keyboardInterrupt =>
      match Actor.stop q0 with
      | Except.ok q => q
      | Except.error _ => q0
  match awaitPending pending with
  | Except.ok _ => { queue := q1, loopClosed := true, raised := none }
  | Except.error e => { queue := q1, loopClosed := false, raised := some e }

theorem awaitPending_ok (pending : List TaskOutcome)
    (h : ∀ t ∈ pending, t.isFailure = false) :
    awaitPending pending = Except.ok () := by
  induction pending with
  | nil => rfl
  | cons t rest ih =>
    have ht := h t (List.mem_cons_self t rest)
    have hrest := ih (fun u hu => h u (List.mem_cons_of_mem t hu))
    cases t with
    | done => simpa [awaitPending] using hrest
    | cancelled => simpa [awaitPending] using hrest
    | failed e => simp [TaskOutcome.isFailure] at ht

/-- C9: `Actor.run` closes the event loop on both of its exit paths — when
the run loop completes normally and when it is interrupted by
`KeyboardInterrupt`, in which case a `"STOP"` is first enqueued via
`Actor.stop`; the `finally` block awaits every pending event-loop task,
suppressing only `CancelledError` (a cancelled task does not prevent the
close, and any other pending-task exception is not suppressed and skips the
close), and then closes the loop. -/
theorem run_closes_loop (items : List String) (ex : RunExit)
    (pending : List TaskOutcome)
    (h : ∀ t ∈ pending, t.isFailure = false) :
    (Actor.run items ex pending).loopClosed = true
    ∧ (Actor.run items ex pending).raised = none
    ∧ (Actor.run items RunExit.keyboardInterrupt pending).queue.items =
        items ++ [WORKER_CONTROL_SIGNAL_STOP]
    ∧ (Actor.run items RunExit.normal pending).queue.items = items
    ∧ (∀ e rest, (Actor.run items ex (TaskOutcome.failed e :: rest)).loopClosed
        = false) := by
  have hok := awaitPending_ok pending h
  refine ⟨?_, ?_, ?_, ?_, ?_⟩
  · simp [Actor.run, hok]
  · simp [Actor.run, hok]
  · simp [Actor.run, hok, Actor.stop, AioQueue.put_nowait, initQueue]
  · simp [Actor.run, hok]
  · intro e rest
    simp [Actor.run, awaitPending]

theorem run_closes_loop_witness :
    (Actor.run ["junk"] RunExit.keyboardInterrupt
      [TaskOutcome.done, TaskOutcome.cancelled]).loopClosed = true
    ∧ (Actor.run ["junk"] RunExit.keyboardInterrupt
        [TaskOutcome.done, TaskOutcome.cancelled]).queue.items =
        ["junk"] ++ [WORKER_CONTROL_SIGNAL_STOP] := by
  have h := run_closes_loop ["junk"] RunExit.keyboardInterrupt
    [TaskOutcome.done, TaskOutcome.cancelled] (by decide)
  exact ⟨h.1, h.2.2.1⟩

end NatsActor
